/-
  Verification of the data-generation and derived-metrics core of the
  EDUR PumpVision dashboard (src/app.py).

  The Python source draws random values through numpy; the embedding makes
  the random source explicit: every generator takes a stream of raw draws
  and models each numpy primitive as a deterministic function of one draw.
    * np.random.uniform(lo, hi)    ~ npUniform lo hi u, u a rational in [0,1)
    * np.random.randint(lo, hi)    ~ npRandint lo hi n, n an arbitrary Nat
    * np.random.choice(opts)       ~ npChoiceList opts n  (uniform choice)
    * np.random.choice(opts, p=[p1,p2,p3]) ~ npChoice3 (inverse-CDF form)
  Floating point is modelled by ℚ; np.sin is passed in as an abstract
  function parameter (none of the verified properties depend on its values).
  Timestamps are modelled as integer hours.
-/
import Mathlib

namespace PumpInfo

/-- Model of `np.random.uniform(lo, hi)`: the raw draw `u` ranges over
`[0, 1)` and is mapped affinely onto `[lo, hi)`. -/
def npUniform (lo hi u : ℚ) : ℚ := lo + u * (hi - lo)

/-- Model of `np.random.randint(lo, hi)` (upper bound exclusive): the raw
draw `n` is reduced modulo the size `hi - lo` of the half-open range. -/
def npRandint (lo hi : Int) (n : Nat) : Int := lo + (n % (hi - lo).toNat : Nat)

/-- Model of `np.random.choice(opts)` (uniform over a list). -/
def npChoiceList (opts : List String) (n : Nat) : String :=
  opts.getD (n % opts.length) ""

/-- Model of `np.random.choice([a,b,c], p=[p1,p2,p3])` by inversion of the
cumulative distribution: the raw draw `u` ranges over `[0,1)`. -/
def npChoice3 (a b c : String) (p1 p2 : ℚ) (u : ℚ) : String :=
  if u < p1 then a else if u < p1 + p2 then b else c

/-- Python `f"{n:03d}"` formatting for the nonnegative values used here. -/
def pad3 (n : Nat) : String :=
  if n < 10 then "00" ++ toString n
  else if n < 100 then "0" ++ toString n
  else toString n

/-- One pump record (field names as in `generate_pump_data`, src/app.py:200). -/
structure Pump where
  id : String
  name : String
  typ : String
  standort : String
  status : String
  druck : ℚ
  druck_soll : ℚ
  temperatur : ℚ
  temp_max : ℚ
  vibration : ℚ
  vib_max : ℚ
  strom : ℚ
  durchfluss : ℚ
  betriebsstunden : ℚ
  naechste_wartung : Int
deriving DecidableEq, Repr

/-- The raw random draws consumed by one iteration of the fleet loop. -/
structure PumpDraws where
  statusU : ℚ
  typN : Nat
  locN : Nat
  druckU : ℚ
  tempU : ℚ
  vibU : ℚ
  stromU : ℚ
  durchflussU : ℚ
  betriebU : ℚ
  wartungN : Nat
deriving DecidableEq

/-- `pump_types` list, src/app.py:195. -/
def pump_types : List String :=
  ["Exzenterschneckenpumpe", "Kreiselpumpe", "Verdrängerpumpe"]

/-- `locations` list, src/app.py:196. -/
def locations : List String := ["Halle A", "Halle B", "Halle C", "Außenbereich"]

/-- `generate_pump_data` (src/app.py:193-217): for `i in range(1, 11)` build
one record from fresh random draws; `ds j` supplies the draws of iteration
`i = j + 1`. -/
def generate_pump_data (ds : Nat → PumpDraws) : List Pump :=
  (List.range 10).map fun j =>
    let i := j + 1
    let d := ds j
    { id := "P-" ++ pad3 i
      name := "Pumpe " ++ toString i
      typ := npChoiceList pump_types d.typN
      standort := npChoiceList locations d.locN
      status := npChoice3 "OK" "Warnung" "Kritisch" (7/10) (2/10) d.statusU
      druck := npUniform 1.5 8.5 d.druckU
      druck_soll := 5.0
      temperatur := npUniform 20 85 d.tempU
      temp_max := 80
      vibration := npUniform 0.5 4.5 d.vibU
      vib_max := 4.0
      strom := npUniform 10 45 d.stromU
      durchfluss := npUniform 5 50 d.durchflussU
      betriebsstunden := npUniform 1000 15000 d.betriebU
      naechste_wartung := npRandint 1 90 d.wartungN }

/-- One alarm record (field names as in `generate_alarm_data`, src/app.py:227). -/
structure Alarm where
  id : String
  pumpe : String
  typ : String
  prioritaet : String
  zeit : Int
  status : String
  empfehlung : String
deriving DecidableEq, Repr

/-- The raw random draws consumed by one iteration of the alarm loop. -/
structure AlarmDraws where
  prioU : ℚ
  pumpN : Nat
  typN : Nat
  zeitN : Nat
  statusU : ℚ
deriving DecidableEq

/-- `alarm_types` list, src/app.py:222. -/
def alarm_types : List String :=
  ["Druckabfall", "Überhitzung", "Erhöhte Vibration", "Stromspitze", "Durchfluss niedrig"]

/-- `generate_alarm_data` (src/app.py:220-236): for `i in range(8)` build one
alarm. `now` is `datetime.now()` in hours; `zeit` is `now` minus
`randint(1, 48)` hours. `priority` is drawn once and reused for both the
`prioritaet` and the `empfehlung` fields. -/
def generate_alarm_data (now : Int) (ds : Nat → AlarmDraws) : List Alarm :=
  (List.range 8).map fun i =>
    let d := ds i
    let priority := npChoice3 "Hoch" "Mittel" "Niedrig" (3/10) (4/10) d.prioU
    { id := "A-" ++ pad3 (i + 1)
      pumpe := "P-" ++ pad3 (npRandint 1 11 d.pumpN).toNat
      typ := npChoiceList alarm_types d.typN
      prioritaet := priority
      zeit := now - npRandint 1 48 d.zeitN
      status := npChoice3 "Offen" "Quittiert" "Behoben" (4/10) (3/10) d.statusU
      empfehlung :=
        if priority = "Hoch" then "Sofortige Inspektion erforderlich"
        else "Überwachung fortsetzen" }

/-- One time-series sample (column names of `generate_historical_data`,
src/app.py:241-247); `Zeit` is in hours. -/
structure Sample where
  Zeit : Int
  Druck : ℚ
  Temperatur : ℚ
  Vibration : ℚ
  Strom : ℚ
deriving DecidableEq, Repr

/-- `generate_historical_data` (src/app.py:239-248).
`pd.date_range(end=now, periods=days*24, freq='H')` yields the hourly
timestamps `now - (periods-1), …, now` and raises a `ValueError` when
`periods` is negative; that fallible step is modelled by `Except`.
`sinA` stands for `np.sin`; `druckU`, `tempU`, `vibU`, `stromU` are the
per-index raw draws of the four `np.random.uniform` calls. Note that the
`pump_id` argument is never used. -/
def generate_historical_data (sinA : ℚ → ℚ) (druckU tempU vibU stromU : Nat → ℚ)
    (now : Int) (pump_id : String) (days : Int) : Except String (List Sample) :=
  let periods : Int := days * 24
  if periods < 0 then
    Except.error "Number of samples must be non-negative"
  else
    let n : Nat := periods.toNat
    Except.ok <| (List.range n).map fun (k : Nat) =>
      { Zeit := now - ((n : Int) - 1 - (k : Int))
        Druck := npUniform 4 6 (druckU k) + sinA ((k : ℚ) / 12) * 0.5
        Temperatur := npUniform 40 60 (tempU k) + sinA ((k : ℚ) / 6) * 5
        Vibration := npUniform 1 3 (vibU k)
        Strom := npUniform 25 35 (stromU k) }

/-! ### The filter layer (src/app.py:280-287)

`filtered_data['id'].str.contains(search_term, case=False)` treats
`search_term` as a regular expression (`regex=True` is the pandas default)
and matches with `re.IGNORECASE` via `re.search` semantics (a match anywhere
in the string). The embedding models the fragment of Python regexes whose
patterns consist of literal characters and the wildcard `.`; a pattern
containing any other regex special character is outside the modelled
fragment and is mapped to `none`. Case folding is modelled by ASCII
lowercasing of both pattern and data, which is exact for the strings this
program generates. -/

/-- One compiled token of the modelled regex fragment: a literal character
or the `.` wildcard. -/
inductive ReTok where
  | lit (c : Char)
  | dot
deriving DecidableEq, Repr

/-- The special (meta) characters of Python regular expressions. -/
def reSpecialChars : List Char :=
  ['.', '^', '$', '*', '+', '?', '\x7b', '\x7d', '[', ']', '\\', '|', '(', ')']

/-- Compile a pattern of the modelled fragment: literal characters and `.`;
any other special character puts the pattern outside the fragment. -/
def reCompileSimple : List Char → Option (List ReTok)
  | [] => some []
  | c :: cs =>
    if c = '.' then (reCompileSimple cs).map (ReTok.dot :: ·)
    else if c ∈ reSpecialChars then none
    else (reCompileSimple cs).map (ReTok.lit c :: ·)

/-- Whether one token matches one character (`.` matches anything except a
newline, as in Python without `re.DOTALL`). -/
def tokMatch : ReTok → Char → Bool
  | ReTok.lit c, d => c == d
  | ReTok.dot, d => d != '\n'

/-- Whether the whole token list matches a prefix of the string. -/
def reMatchHere : List ReTok → List Char → Bool
  | [], _ => true
  | _ :: _, [] => false
  | t :: ts, c :: cs => tokMatch t c && reMatchHere ts cs

/-- `re.search` semantics: the token list matches at some position. -/
def reSearch (toks : List ReTok) : List Char → Bool
  | [] => reMatchHere toks []
  | c :: cs => reMatchHere toks (c :: cs) || reSearch toks cs

/-- ASCII lowercasing of a string into its character list, modelling the
`re.IGNORECASE` flag that pandas passes for `case=False`. -/
def lowerChars (s : String) : List Char := s.toList.map Char.toLower

/-- The search predicate of src/app.py:283-284: the record is kept when its
`id` or its `standort` matches the pattern. -/
def searchMatches (toks : List ReTok) (p : Pump) : Bool :=
  reSearch toks (lowerChars p.id) || reSearch toks (lowerChars p.standort)

/-- The filter block of src/app.py:280-287: start from the full fleet;
when `search_term` is non-empty (Python truthiness) keep the records whose
`id` or `standort` matches it case-insensitively as a regex; when
`pump_filter` is non-empty keep the records whose `typ` is a member.
The result is `none` when the search pattern lies outside the modelled
regex fragment. -/
def filtered_data (fleet : List Pump) (search_term : String)
    (pump_filter : List String) : Option (List Pump) :=
  let afterSearch : Option (List Pump) :=
    if search_term.isEmpty then some fleet
    else
      match reCompileSimple (lowerChars search_term) with
      | none => none
      | some toks => some (fleet.filter fun p => searchMatches toks p)
  afterSearch.map fun l =>
    if pump_filter.isEmpty then l
    else l.filter fun p => pump_filter.contains p.typ

/-- Case-insensitive substring containment as the spec words it
(`charsPrefixEq`/`charsContains` are plain list-of-characters substring
search). Used to compare the spec's "substring match" reading against the
source's regex matching. -/
def charsPrefixEq : List Char → List Char → Bool
  | [], _ => true
  | _ :: _, [] => false
  | c :: cs, d :: ds => c == d && charsPrefixEq cs ds

/-- Whether `pat` occurs as a contiguous substring of the second list. -/
def charsContains (pat : List Char) : List Char → Bool
  | [] => charsPrefixEq pat []
  | d :: ds => charsPrefixEq pat (d :: ds) || charsContains pat ds

/-- Modelled from the spec: "contains the term, case-insensitively, as a
substring match". -/
def specSubstringCI (s term : String) : Bool :=
  charsContains (lowerChars term) (lowerChars s)

/-- The maintenance-status lambda of src/app.py:706-708. -/
def maintenanceStatus (x : Int) : String :=
  if x < 0 then "🔴 Überfällig" else if x < 7 then "🟡 Dringend" else "🟢 Geplant"

/-- The raw uniform draws of one `PumpDraws` record all lie in `[0, 1)`, as
`np.random`'s unit-interval source guarantees. -/
def PumpDrawsInUnit (d : PumpDraws) : Prop :=
  (0 ≤ d.statusU ∧ d.statusU < 1) ∧ (0 ≤ d.druckU ∧ d.druckU < 1) ∧
  (0 ≤ d.tempU ∧ d.tempU < 1) ∧ (0 ≤ d.vibU ∧ d.vibU < 1) ∧
  (0 ≤ d.stromU ∧ d.stromU < 1) ∧ (0 ≤ d.durchflussU ∧ d.durchflussU < 1) ∧
  (0 ≤ d.betriebU ∧ d.betriebU < 1)

instance (d : PumpDraws) : Decidable (PumpDrawsInUnit d) := by
  unfold PumpDrawsInUnit; infer_instance

/-- An all-zero draw stream for the fleet generator, used to instantiate
universally quantified statements at a concrete input. -/
def drawsW : Nat → PumpDraws := fun _ => ⟨0, 0, 0, 0, 0, 0, 0, 0, 0, 0⟩

/-- The record the fleet generator produces in its first iteration on the
all-zero draw stream (fields written as the generator computes them; the
numeric fields evaluate to 1.5, 20, 0.5, 10, 5, 1000 and 1). -/
def pumpW : Pump :=
  { id := "P-001", name := "Pumpe 1"
    typ := npChoiceList pump_types 0
    standort := npChoiceList locations 0
    status := npChoice3 "OK" "Warnung" "Kritisch" (7/10) (2/10) 0
    druck := npUniform 1.5 8.5 0, druck_soll := 5.0
    temperatur := npUniform 20 85 0, temp_max := 80
    vibration := npUniform 0.5 4.5 0, vib_max := 4.0
    strom := npUniform 10 45 0, durchfluss := npUniform 5 50 0
    betriebsstunden := npUniform 1000 15000 0
    naechste_wartung := npRandint 1 90 0 }

/-- An all-zero draw stream for the alarm generator. -/
def drawsAW : Nat → AlarmDraws := fun _ => ⟨0, 0, 0, 0, 0⟩

/-- The alarm the alarm generator produces in its first iteration on the
all-zero draw stream with `now = 0` (its `prioritaet` evaluates to "Hoch"). -/
def alarmW : Alarm :=
  { id := "A-001", pumpe := "P-" ++ pad3 (npRandint 1 11 0).toNat
    typ := npChoiceList alarm_types 0
    prioritaet := npChoice3 "Hoch" "Mittel" "Niedrig" (3/10) (4/10) 0
    zeit := 0 - npRandint 1 48 0
    status := npChoice3 "Offen" "Quittiert" "Behoben" (4/10) (3/10) 0
    empfehlung :=
      if npChoice3 "Hoch" "Mittel" "Niedrig" (3/10) (4/10) 0 = "Hoch" then
        "Sofortige Inspektion erforderlich"
      else "Überwachung fortsetzen" }

/-! ## Shared helper lemmas -/

theorem npUniform_lo_le (lo hi u : ℚ) (hlohi : lo ≤ hi) (h0 : 0 ≤ u) :
    lo ≤ npUniform lo hi u := by
  unfold npUniform; nlinarith

theorem npUniform_le_hi (lo hi u : ℚ) (hlohi : lo ≤ hi) (h1 : u < 1) :
    npUniform lo hi u ≤ hi := by
  unfold npUniform; nlinarith

theorem reCompileSimple_plain (cs : List Char) (h : ∀ c ∈ cs, c ∉ reSpecialChars) :
    reCompileSimple cs = some (cs.map ReTok.lit) := by
  induction cs with
  | nil => rfl
  | cons c cs ih =>
    have hc : c ∉ reSpecialChars := h c (by simp)
    have hdot : ¬ c = '.' := fun e => hc (by rw [e]; decide)
    simp [reCompileSimple, hdot, hc, ih fun d hd => h d (by simp [hd])]

theorem reMatchHere_lits (pat s : List Char) :
    reMatchHere (pat.map ReTok.lit) s = charsPrefixEq pat s := by
  induction pat generalizing s with
  | nil => cases s <;> rfl
  | cons c cs ih =>
    cases s with
    | nil => rfl
    | cons d ds => simp [reMatchHere, charsPrefixEq, tokMatch, ih]

theorem reSearch_lits (pat s : List Char) :
    reSearch (pat.map ReTok.lit) s = charsContains pat s := by
  induction s with
  | nil => simp [reSearch, charsContains, reMatchHere_lits]
  | cons d ds ih => simp [reSearch, charsContains, reMatchHere_lits, ih]

/-! ## Claim theorems -/

/-- C3: `maintenanceStatus` is a pure total function over all integers with
exactly these buckets: Overdue iff the day count is negative, Urgent iff it
lies in `[0, 7)`, Planned iff it is at least 7; in particular `-1` is
Overdue, `0` and `6` are Urgent, and `7` is Planned. -/
theorem maintenanceStatus_buckets (x : Int) :
    (maintenanceStatus x = "🔴 Überfällig" ↔ x < 0) ∧
    (maintenanceStatus x = "🟡 Dringend" ↔ 0 ≤ x ∧ x < 7) ∧
    (maintenanceStatus x = "🟢 Geplant" ↔ 7 ≤ x) ∧
    maintenanceStatus (-1) = "🔴 Überfällig" ∧
    maintenanceStatus 0 = "🟡 Dringend" ∧
    maintenanceStatus 6 = "🟡 Dringend" ∧
    maintenanceStatus 7 = "🟢 Geplant" := by
  refine ⟨?_, ?_, ?_, by decide, by decide, by decide, by decide⟩ <;>
    · unfold maintenanceStatus
      split_ifs with h1 h2 <;> simp_all <;> omega

/-- C5: the output of `generate_historical_data` does not vary with the
`pump_id` argument: for the same day count and the same underlying random
draws, any two pump ids give equal sample sequences. -/
theorem generate_historical_data_pumpId_irrelevant (sinA : ℚ → ℚ)
    (druckU tempU vibU stromU : Nat → ℚ) (now : Int) (p1 p2 : String)
    (days : Int) :
    generate_historical_data sinA druckU tempU vibU stromU now p1 days =
      generate_historical_data sinA druckU tempU vibU stromU now p2 days := rfl

/-- C7: for every draw stream, the fleet generator returns exactly 10 records
whose ids are, in order, P-001 … P-010 (pairwise distinct), and the alarm
generator returns exactly 8 records whose ids are, in order, A-001 … A-008
(pairwise distinct). -/
theorem generators_cardinality_unique_ids (pds : Nat → PumpDraws) (now : Int)
    (ads : Nat → AlarmDraws) :
    (generate_pump_data pds).length = 10 ∧
    (generate_pump_data pds).map Pump.id =
      ["P-001", "P-002", "P-003", "P-004", "P-005",
       "P-006", "P-007", "P-008", "P-009", "P-010"] ∧
    ((generate_pump_data pds).map Pump.id).Nodup ∧
    (generate_alarm_data now ads).length = 8 ∧
    (generate_alarm_data now ads).map Alarm.id =
      ["A-001", "A-002", "A-003", "A-004", "A-005", "A-006", "A-007", "A-008"] ∧
    ((generate_alarm_data now ads).map Alarm.id).Nodup := by
  have hp : (generate_pump_data pds).map Pump.id =
      ["P-001", "P-002", "P-003", "P-004", "P-005",
       "P-006", "P-007", "P-008", "P-009", "P-010"] := rfl
  have ha : (generate_alarm_data now ads).map Alarm.id =
      ["A-001", "A-002", "A-003", "A-004", "A-005", "A-006", "A-007", "A-008"] := rfl
  refine ⟨rfl, hp, ?_, rfl, ha, ?_⟩
  · rw [hp]; decide
  · rw [ha]; decide

/-- C1 (counterexample): at `days = 0` the time-series generator does not
reject the call; it silently returns an empty sequence. -/
theorem generate_historical_data_zero_days_silent_empty :
    generate_historical_data (fun _ => 0) (fun _ => 0) (fun _ => 0) (fun _ => 0)
      (fun _ => 0) 0 "P-001" 0 = Except.ok [] := rfl

/-- C1 (amended): for every negative `days` the time-series generator rejects
the call (the `pd.date_range` step raises on a negative sample count), while
at `days = 0` it silently returns an empty sequence. -/
theorem generate_historical_data_nonpositive_days (sinA : ℚ → ℚ)
    (druckU tempU vibU stromU : Nat → ℚ) (now : Int) (pid : String) (days : Int) :
    (days < 0 → generate_historical_data sinA druckU tempU vibU stromU now pid days =
      Except.error "Number of samples must be non-negative") ∧
    (days = 0 → generate_historical_data sinA druckU tempU vibU stromU now pid days =
      Except.ok []) := by
  constructor
  · intro h
    have hneg : days * 24 < 0 := by omega
    simp [generate_historical_data, hneg]
  · rintro rfl
    rfl

/-- Witness for the amended C1 at `days = -1` and `days = 0`. -/
theorem generate_historical_data_nonpositive_days_witness :
    (generate_historical_data (fun _ => 0) (fun _ => 0) (fun _ => 0) (fun _ => 0)
      (fun _ => 0) 0 "P-001" (-1) =
        Except.error "Number of samples must be non-negative") ∧
    (generate_historical_data (fun _ => 0) (fun _ => 0) (fun _ => 0) (fun _ => 0)
      (fun _ => 0) 0 "P-001" 0 = Except.ok []) :=
  ⟨(generate_historical_data_nonpositive_days (fun _ => 0) (fun _ => 0) (fun _ => 0)
      (fun _ => 0) (fun _ => 0) 0 "P-001" (-1)).1 (by decide),
   (generate_historical_data_nonpositive_days (fun _ => 0) (fun _ => 0) (fun _ => 0)
      (fun _ => 0) (fun _ => 0) 0 "P-001" 0).2 rfl⟩

/-- C6 (counterexample): `naechste_wartung` can never be 90, because
`np.random.randint(1, 90)` excludes its upper bound; so 90 is not a possible
value of `nextMaintenanceDays`. -/
theorem generate_pump_data_maintenance_never_90 :
    ¬ ∃ (ds : Nat → PumpDraws) (p : Pump),
        p ∈ generate_pump_data ds ∧ p.naechste_wartung = 90 := by
  rintro ⟨ds, p, hp, h90⟩
  simp only [generate_pump_data, List.mem_map, List.mem_range] at hp
  obtain ⟨j, hj, rfl⟩ := hp
  norm_num [npRandint] at h90
  omega

/-- C6 (amended): every record of the fleet generator satisfies the stated
field ranges — pressure in `[1.5, 8.5]` with setpoint fixed at `5.0`,
temperature in `[20, 85]` with ceiling fixed at `80`, vibration in
`[0.5, 4.5]` with ceiling fixed at `4.0`, current in `[10, 45]`, flow in
`[5, 50]`, operating hours in `[1000, 15000]` — and `naechste_wartung` is an
integer in `[1, 89]` (not `[1, 90]`), with every integer of `[1, 89]` a
possible value. -/
theorem generate_pump_data_field_ranges (ds : Nat → PumpDraws)
    (hds : ∀ k, PumpDrawsInUnit (ds k)) (p : Pump)
    (hp : p ∈ generate_pump_data ds) :
    ((1.5 ≤ p.druck ∧ p.druck ≤ 8.5) ∧ p.druck_soll = 5.0 ∧
     (20 ≤ p.temperatur ∧ p.temperatur ≤ 85) ∧ p.temp_max = 80 ∧
     (0.5 ≤ p.vibration ∧ p.vibration ≤ 4.5) ∧ p.vib_max = 4.0 ∧
     (10 ≤ p.strom ∧ p.strom ≤ 45) ∧ (5 ≤ p.durchfluss ∧ p.durchfluss ≤ 50) ∧
     (1000 ≤ p.betriebsstunden ∧ p.betriebsstunden ≤ 15000) ∧
     (1 ≤ p.naechste_wartung ∧ p.naechste_wartung ≤ 89)) ∧
    (∀ m : Int, 1 ≤ m → m ≤ 89 →
      ∃ (ds2 : Nat → PumpDraws) (p2 : Pump),
        p2 ∈ generate_pump_data ds2 ∧ p2.naechste_wartung = m) := by
  constructor
  · simp only [generate_pump_data, List.mem_map, List.mem_range] at hp
    obtain ⟨j, hj, rfl⟩ := hp
    obtain ⟨hs, hd, ht, hv, hst, hdu, hb⟩ := hds j
    refine ⟨⟨npUniform_lo_le _ _ _ (by norm_num) hd.1,
             npUniform_le_hi _ _ _ (by norm_num) hd.2⟩, rfl,
            ⟨npUniform_lo_le _ _ _ (by norm_num) ht.1,
             npUniform_le_hi _ _ _ (by norm_num) ht.2⟩, rfl,
            ⟨npUniform_lo_le _ _ _ (by norm_num) hv.1,
             npUniform_le_hi _ _ _ (by norm_num) hv.2⟩, rfl,
            ⟨npUniform_lo_le _ _ _ (by norm_num) hst.1,
             npUniform_le_hi _ _ _ (by norm_num) hst.2⟩,
            ⟨npUniform_lo_le _ _ _ (by norm_num) hdu.1,
             npUniform_le_hi _ _ _ (by norm_num) hdu.2⟩,
            ⟨npUniform_lo_le _ _ _ (by norm_num) hb.1,
             npUniform_le_hi _ _ _ (by norm_num) hb.2⟩, ?_, ?_⟩ <;>
      · show _ ≤ _
        norm_num [npRandint]
        omega
  · intro m h1 h89
    refine ⟨fun _ => ⟨0, 0, 0, 0, 0, 0, 0, 0, 0, (m - 1).toNat⟩, _,
      List.mem_map.mpr ⟨0, by simp, rfl⟩, ?_⟩
    show npRandint 1 90 (m - 1).toNat = m
    norm_num [npRandint]
    omega

/-- Witness for the amended C6: the all-zero draw stream lies in the unit
interval, `pumpW` is a member of the fleet it generates, and the conclusion
holds there. -/
theorem generate_pump_data_field_ranges_witness :
    (∀ k, PumpDrawsInUnit (drawsW k)) ∧ pumpW ∈ generate_pump_data drawsW ∧
    (1.5 ≤ pumpW.druck ∧ pumpW.druck ≤ 8.5) ∧
    (1 ≤ pumpW.naechste_wartung ∧ pumpW.naechste_wartung ≤ 89) := by
  have hu : ∀ k, PumpDrawsInUnit (drawsW k) :=
    fun _ => (by decide : PumpDrawsInUnit ⟨0, 0, 0, 0, 0, 0, 0, 0, 0, 0⟩)
  have hm : pumpW ∈ generate_pump_data drawsW :=
    List.mem_map.mpr ⟨0, List.mem_range.mpr (by decide), rfl⟩
  have h := (generate_pump_data_field_ranges drawsW hu pumpW hm).1
  exact ⟨hu, hm, h.1, h.2.2.2.2.2.2.2.2.2⟩

/-- C4: for every positive `days`, the time-series generator succeeds and
returns exactly `days * 24` samples, one per hour — the `i`-th sample's time
is exactly `now - (days*24 - 1) + i` hours, so consecutive samples are one
hour apart — with times strictly ascending (hence pairwise distinct) and the
final one equal to the call time `now`. -/
theorem generate_historical_data_shape (sinA : ℚ → ℚ)
    (druckU tempU vibU stromU : Nat → ℚ) (now : Int) (pid : String)
    (days : Int) (hd : 0 < days) :
    ∃ l, generate_historical_data sinA druckU tempU vibU stromU now pid days =
        Except.ok l ∧
      (l.length : Int) = days * 24 ∧
      (∀ i (h : i < l.length), (l.get ⟨i, h⟩).Zeit = now - (days * 24 - 1) + i) ∧
      (l.map Sample.Zeit).Pairwise (· < ·) ∧
      (l.map Sample.Zeit).getLast? = some now := by
  have hnn : ¬ days * 24 < 0 := by omega
  have hcast : ((days * 24).toNat : Int) = days * 24 := Int.toNat_of_nonneg (by omega)
  have hpos : 0 < (days * 24).toNat := by omega
  have hgen : generate_historical_data sinA druckU tempU vibU stromU now pid days =
      Except.ok ((List.range (days * 24).toNat).map fun (k : Nat) =>
        { Zeit := now - (((days * 24).toNat : Int) - 1 - (k : Int))
          Druck := npUniform 4 6 (druckU k) + sinA ((k : ℚ) / 12) * 0.5
          Temperatur := npUniform 40 60 (tempU k) + sinA ((k : ℚ) / 6) * 5
          Vibration := npUniform 1 3 (vibU k)
          Strom := npUniform 25 35 (stromU k) }) := by
    simp only [generate_historical_data]
    rw [if_neg hnn]
  refine ⟨_, hgen, ?_, ?_, ?_, ?_⟩
  · simpa using hcast
  · intro i h
    simp only [List.length_map, List.length_range] at h
    simp only [List.get_eq_getElem, List.getElem_map, List.getElem_range]
    omega
  · rw [List.map_map, List.pairwise_map]
    exact (List.pairwise_lt_range _).imp fun {a b} hab => by
      simp only [Function.comp]
      omega
  · rw [List.map_map, List.getLast?_eq_getElem?]
    simp only [List.length_map, List.length_range]
    rw [List.getElem?_map, List.getElem?_range (by omega)]
    simp only [Option.map_some', Option.some.injEq, Function.comp_apply]
    omega

/-- Witness for C4 at `days = 1`. -/
theorem generate_historical_data_shape_witness :
    (0 : Int) < 1 ∧
    ∃ l, generate_historical_data (fun _ => 0) (fun _ => 0) (fun _ => 0)
        (fun _ => 0) (fun _ => 0) 5 "P-001" 1 = Except.ok l ∧
      (l.length : Int) = 1 * 24 ∧
      (∀ i (h : i < l.length), (l.get ⟨i, h⟩).Zeit = 5 - (1 * 24 - 1) + i) ∧
      (l.map Sample.Zeit).Pairwise (· < ·) ∧
      (l.map Sample.Zeit).getLast? = some 5 :=
  ⟨by decide,
   generate_historical_data_shape (fun _ => 0) (fun _ => 0) (fun _ => 0)
     (fun _ => 0) (fun _ => 0) 5 "P-001" 1 (by decide)⟩

/-- C8: in every generated alarm, the recommendation is determined solely by
the priority: it equals the fixed "immediate inspection" string iff the
priority is "Hoch", and equals the "continue monitoring" string otherwise. -/
theorem generate_alarm_data_recommendation (now : Int) (ds : Nat → AlarmDraws)
    (a : Alarm) (ha : a ∈ generate_alarm_data now ds) :
    (a.empfehlung = "Sofortige Inspektion erforderlich" ↔ a.prioritaet = "Hoch") ∧
    (a.prioritaet ≠ "Hoch" → a.empfehlung = "Überwachung fortsetzen") := by
  simp only [generate_alarm_data, List.mem_map, List.mem_range] at ha
  obtain ⟨i, hi, rfl⟩ := ha
  dsimp only
  by_cases h : npChoice3 "Hoch" "Mittel" "Niedrig" (3/10) (4/10) (ds i).prioU = "Hoch"
  · simp [h]
  · simp [h]

/-- Witness for C8 at the all-zero draw stream and its first alarm. -/
theorem generate_alarm_data_recommendation_witness :
    alarmW ∈ generate_alarm_data 0 drawsAW ∧
    ((alarmW.empfehlung = "Sofortige Inspektion erforderlich" ↔
        alarmW.prioritaet = "Hoch") ∧
     (alarmW.prioritaet ≠ "Hoch" →
        alarmW.empfehlung = "Überwachung fortsetzen")) := by
  have hm : alarmW ∈ generate_alarm_data 0 drawsAW :=
    List.mem_map.mpr ⟨0, List.mem_range.mpr (by decide), rfl⟩
  exact ⟨hm, generate_alarm_data_recommendation 0 drawsAW alarmW hm⟩

/-- C10: every generated alarm references a pump that exists in every
generated fleet — both draw their pump index from the same hardcoded
1 … 10 range, so referential integrity holds in all generated data. -/
theorem alarm_pump_reference_in_fleet (pds : Nat → PumpDraws) (now : Int)
    (ads : Nat → AlarmDraws) (a : Alarm)
    (ha : a ∈ generate_alarm_data now ads) :
    ∃ p ∈ generate_pump_data pds, p.id = a.pumpe := by
  simp only [generate_alarm_data, List.mem_map, List.mem_range] at ha
  obtain ⟨i, hi, rfl⟩ := ha
  dsimp only
  have hlen : (generate_pump_data pds).length = 10 := by
    simp [generate_pump_data]
  refine ⟨(generate_pump_data pds).get
      ⟨(ads i).pumpN % 10, by omega⟩, List.get_mem _ _ _, ?_⟩
  have hget : ∀ (m : Nat) (hm : m < 10),
      ((generate_pump_data pds).get ⟨m, by omega⟩).id = "P-" ++ pad3 (m + 1) := by
    intro m hm
    simp [generate_pump_data, List.get_eq_getElem]
  rw [hget _ (Nat.mod_lt _ (by decide))]
  have harg : (npRandint 1 11 (ads i).pumpN).toNat = (ads i).pumpN % 10 + 1 := by
    norm_num [npRandint]
    omega
  rw [harg]

/-- Witness for C10 at concrete draw streams and the first generated alarm. -/
theorem alarm_pump_reference_in_fleet_witness :
    alarmW ∈ generate_alarm_data 0 drawsAW ∧
    ∃ p ∈ generate_pump_data drawsW, p.id = alarmW.pumpe := by
  have hm : alarmW ∈ generate_alarm_data 0 drawsAW :=
    List.mem_map.mpr ⟨0, List.mem_range.mpr (by decide), rfl⟩
  exact ⟨hm, alarm_pump_reference_in_fleet drawsW 0 drawsAW alarmW hm⟩

/-- C2 (counterexample): the search is a regular-expression match, not a
substring match: with the non-empty search term "." the filter keeps
`pumpW` although neither its `id` nor its `standort` contains "." as a
substring (case-insensitively). -/
theorem filtered_data_dot_not_substring :
    filtered_data [pumpW] "." [] = some [pumpW] ∧
    specSubstringCI pumpW.id "." = false ∧
    specSubstringCI pumpW.standort "." = false := ⟨rfl, by decide, by decide⟩

/-- C2 (amended): the filter treats the search term as a case-insensitive
regular expression; for every non-empty term free of regex special
characters this coincides with case-insensitive substring containment on
`id` or `standort`, keeping exactly the matching records. -/
theorem filtered_data_plain_term_substring (fleet : List Pump) (term : String)
    (hne : ¬ term.isEmpty = true)
    (hplain : ∀ c ∈ lowerChars term, c ∉ reSpecialChars) :
    filtered_data fleet term [] =
      some (fleet.filter fun p =>
        specSubstringCI p.id term || specSubstringCI p.standort term) := by
  unfold filtered_data
  rw [if_neg hne, reCompileSimple_plain _ hplain]
  simp only [Option.map_some', List.isEmpty_nil, if_true]
  unfold searchMatches specSubstringCI
  simp only [reSearch_lits]

/-- Witness for the amended C2 with the term "halle a" on a one-record fleet. -/
theorem filtered_data_plain_term_substring_witness :
    ¬ ("halle a").isEmpty = true ∧
    (∀ c ∈ lowerChars "halle a", c ∉ reSpecialChars) ∧
    filtered_data [pumpW] "halle a" [] =
      some ([pumpW].filter fun p =>
        specSubstringCI p.id "halle a" || specSubstringCI p.standort "halle a") :=
  ⟨by decide, by decide,
   filtered_data_plain_term_substring [pumpW] "halle a" (by decide) (by decide)⟩

/-- C9 (counterexample): with both filters present — the term "." and a
type filter containing the record's type — the record is kept although it
does not satisfy the search predicate as specified (case-insensitive
substring containment of the term in `id` or `standort`): "kept iff it
satisfies both predicates" fails, because the code's search predicate is a
regex match, not the specified substring match. -/
theorem filtered_data_and_of_spec_predicates_fails :
    filtered_data [pumpW] "." ["Exzenterschneckenpumpe"] = some [pumpW] ∧
    (specSubstringCI pumpW.id "." || specSubstringCI pumpW.standort ".") = false :=
  ⟨rfl, by decide⟩

/-- C9 (amended): with both filters absent, `filtered_data` returns the full
fleet unchanged; and for every search term in the modelled regex fragment
(literal characters and the "." wildcard) and every type filter, it returns
an order-preserving subsequence of the fleet in which a record is kept
exactly when it satisfies both of the code's predicates — a case-insensitive
regex match of the term on `id` or `standort`, and type membership — an
absent (empty) filter imposing no restriction. -/
theorem filtered_data_sublist_and_conjunction (fleet : List Pump)
    (term : String) (tf : List String) (toks : List ReTok)
    (hc : reCompileSimple (lowerChars term) = some toks) :
    filtered_data fleet "" [] = some fleet ∧
    ∃ res, filtered_data fleet term tf = some res ∧
      res.Sublist fleet ∧
      ∀ p, p ∈ res ↔ p ∈ fleet ∧
        (term.isEmpty || searchMatches toks p) = true ∧
        (tf.isEmpty || tf.contains p.typ) = true := by
  refine ⟨rfl, ?_⟩
  unfold filtered_data
  by_cases hterm : term.isEmpty
  · rw [if_pos hterm]
    by_cases htf : tf.isEmpty
    · refine ⟨fleet, by simp [htf], List.Sublist.refl _, fun p => ?_⟩
      simp [hterm, htf]
    · refine ⟨fleet.filter (fun p => tf.contains p.typ), by simp [htf],
        List.filter_sublist _, fun p => ?_⟩
      simp [hterm, htf, List.mem_filter]
  · rw [if_neg hterm, hc]
    by_cases htf : tf.isEmpty
    · refine ⟨fleet.filter (fun p => searchMatches toks p), by simp [htf],
        List.filter_sublist _, fun p => ?_⟩
      simp [hterm, htf, List.mem_filter]
    · refine ⟨(fleet.filter (fun p => searchMatches toks p)).filter
          (fun p => tf.contains p.typ), by simp [htf],
        (List.filter_sublist _).trans (List.filter_sublist _),
        fun p => ?_⟩
      simp only [List.mem_filter]
      constructor
      · rintro ⟨⟨hpf, hs⟩, ht⟩
        have hmem : p.typ ∈ tf := by simpa using ht
        exact ⟨hpf, by simp [hs], by simp [hmem]⟩
      · rintro ⟨hpf, hs, ht⟩
        refine ⟨⟨hpf, ?_⟩, ?_⟩
        · simpa [hterm] using hs
        · simpa [htf] using ht

/-- Witness for C9 with the term "." and a type filter on a one-record fleet. -/
theorem filtered_data_sublist_and_conjunction_witness :
    reCompileSimple (lowerChars ".") = some [ReTok.dot] ∧
    (filtered_data [pumpW] "" [] = some [pumpW] ∧
     ∃ res, filtered_data [pumpW] "." ["Kreiselpumpe"] = some res ∧
       res.Sublist [pumpW] ∧
       ∀ p, p ∈ res ↔ p ∈ [pumpW] ∧
         (("." : String).isEmpty || searchMatches [ReTok.dot] p) = true ∧
         ((["Kreiselpumpe"] : List String).isEmpty ||
           (["Kreiselpumpe"] : List String).contains p.typ) = true) :=
  ⟨by decide,
   filtered_data_sublist_and_conjunction [pumpW] "." ["Kreiselpumpe"]
     [ReTok.dot] (by decide)⟩

end PumpInfo
